import Mathlib

/-!
Shallow embedding of the Performance-Model application (`flask/app.py`):
the history-feature derivation, score backfill, feature-vector assembly and
classification pipeline, together with theorems checking the specification
against it.  Floating-point values are modelled by `Rat`; Python `dict`s by
association lists in insertion order; Python exceptions by `Except`/`Option`.
-/

set_option autoImplicit false

namespace PerfModel

/-- Characters Python treats as whitespace in `str.strip()` and `str.split()`. -/
def isPyWs (c : Char) : Bool :=
  c == ' ' || c == '\t' || c == '\n' || c == '\r' || c == '\x0b' || c == '\x0c'

/-- Python `str.strip()` on a character list. -/
def stripL (l : List Char) : List Char :=
  ((l.dropWhile isPyWs).reverse.dropWhile isPyWs).reverse

/-- Python `str.strip()`. -/
def pyStrip (s : String) : String := String.mk (stripL s.toList)

/-- Numeric value of a digit string (callers guarantee the characters are digits). -/
def natOfDigits (l : List Char) : Nat :=
  l.foldl (fun n c => 10 * n + (c.toNat - 48)) 0

/-- Python `int` on an already stripped, unsigned character list. -/
def unsignedInt (l : List Char) : Option Nat :=
  if !l.isEmpty && l.all Char.isDigit then some (natOfDigits l) else none

/-- Python `int(s)`: optional surrounding whitespace, optional sign, digits. -/
def pyInt (s : String) : Option Int :=
  match stripL s.toList with
  | '+' :: rest => (unsignedInt rest).map Int.ofNat
  | '-' :: rest => (unsignedInt rest).map (fun n => -(n : Int))
  | l => (unsignedInt l).map Int.ofNat

/-- Python `float` on a stripped, unsigned character list: digits with an
optional fractional part (the subset of float syntax this application sees). -/
def unsignedFloat (l : List Char) : Option Rat :=
  let ip := l.takeWhile Char.isDigit
  match l.dropWhile Char.isDigit with
  | [] => if ip.isEmpty then none else some (natOfDigits ip : Rat)
  | '.' :: fp =>
    if fp.all Char.isDigit && !(ip.isEmpty && fp.isEmpty) then
      some ((natOfDigits ip : Rat) + (natOfDigits fp : Rat) / (10 : Rat) ^ fp.length)
    else none
  | _ => none

/-- Python `float(s)`: optional surrounding whitespace and sign. -/
def pyFloat (s : String) : Option Rat :=
  match stripL s.toList with
  | '+' :: rest => unsignedFloat rest
  | '-' :: rest => (unsignedFloat rest).map Neg.neg
  | l => unsignedFloat l

/-- Python `course_code.split()[0]`: the first whitespace-delimited token;
`none` when the split list is empty (Python raises IndexError there). -/
def firstToken (s : String) : Option String :=
  match s.toList.dropWhile isPyWs with
  | [] => none
  | l => some (String.mk (l.takeWhile (fun c => !isPyWs c)))

/-- Python `s.startswith(p)`: character-wise prefix test. -/
def pyStartsWith (s p : String) : Bool := p.toList.isPrefixOf s.toList

/-- The substring of a course code before its first space: the department
token as the specification words it. -/
def beforeFirstSpace (s : String) : String :=
  String.mk (s.toList.takeWhile (fun c => c ≠ ' '))

/-- One row of the historical dataset. -/
structure HistoricalRecord where
  student_id : Int
  course_code : String
  has_prerequisites : Bool
  total_score : Rat
  midterm_score : Rat
  final_score : Rat
  assignment_score : Rat
  attendance_rate : Rat
  passed : Bool
  deriving DecidableEq

/-- The `passed` column viewed numerically (pandas mean of a boolean column). -/
def passedRat (r : HistoricalRecord) : Rat := if r.passed then 1 else 0

/-- Arithmetic mean of a list of values (`Series.mean`); only applied to
non-empty lists, mirroring the emptiness guards of the source. -/
def mean (l : List Rat) : Rat := l.sum / (l.length : Rat)

/-- First-match association-list lookup: Python `dict` access `d[k]`. -/
def dlookup (d : List (String × Rat)) (k : String) : Option Rat :=
  match d with
  | [] => none
  | (k2, v) :: t => if k2 = k then some v else dlookup t k

/-- The filter of the zero-fill branch of `get_history_features`:
`k.startswith('past_') or k in [...]`. -/
def isHistKey (k : String) : Bool :=
  pyStartsWith k "past_" || k == "courses_taken" || k == "dept_pass_rate" ||
    k == "prereq_avg_score" || k == "prereq_pass_rate"

/-- The zero-fill dictionary returned for a student with no records. -/
def zeroFill (FEATURES : List String) : List (String × Rat) :=
  (FEATURES.filter isHistKey).map (fun k => (k, 0))

/-- The hardcoded fallback feature list of `app.py`. -/
def FEATURES_default : List String :=
  ["has_prerequisites", "credits", "attendance_rate",
   "midterm_score", "final_score", "assignment_score",
   "past_avg_total_score", "past_avg_midterm_score", "past_avg_final_score",
   "past_avg_assignment_score", "past_avg_attendance", "past_pass_rate",
   "courses_taken", "dept_pass_rate", "prereq_avg_score", "prereq_pass_rate"]

/-- The ten history-derived feature names, in the dictionary insertion order
of the non-empty branch of `get_history_features`. -/
def histKeys10 : List String :=
  ["past_avg_total_score", "past_avg_midterm_score", "past_avg_final_score",
   "past_avg_assignment_score", "past_avg_attendance", "past_pass_rate",
   "courses_taken", "dept_pass_rate", "prereq_avg_score", "prereq_pass_rate"]

/-- The past set: drop rows whose `course_code` equals the requested course
exactly, falling back to all the student's records when that empties the set. -/
def pastSet (recs : List HistoricalRecord) (course_code : Option String) :
    List HistoricalRecord :=
  match course_code with
  | none => recs
  | some c =>
    let p := recs.filter (fun r => r.course_code ≠ c)
    if p.isEmpty then recs else p

/-- The `dept_pass_rate` computation: Python truthiness on `course_code`,
`split()[0]` (IndexError on a whitespace-only code), the `startswith` filter,
and the fallback to the overall past pass rate. -/
def deptPassRate (past : List HistoricalRecord) (course_code : Option String) :
    Except String Rat :=
  match course_code with
  | none => .ok (mean (past.map passedRat))
  | some c =>
    if c = "" then .ok (mean (past.map passedRat))
    else
      match firstToken c with
      | none => .error "IndexError: list index out of range"
      | some dept =>
        let dept_past := past.filter (fun r => pyStartsWith r.course_code dept)
        if dept_past.isEmpty then .ok (mean (past.map passedRat))
        else .ok (mean (dept_past.map passedRat))

/-- The non-empty branch of `get_history_features`: the feature dictionary in
its Python insertion order. -/
def histFeatsCore (recs : List HistoricalRecord) (course_code : Option String) :
    Except String (List (String × Rat)) :=
  let past := pastSet recs course_code
  (deptPassRate past course_code).map (fun dpr =>
    let prereq_past := past.filter (fun r => r.has_prerequisites)
    [("past_avg_total_score", mean (past.map (fun r => r.total_score))),
         ("past_avg_midterm_score", mean (past.map (fun r => r.midterm_score))),
         ("past_avg_final_score", mean (past.map (fun r => r.final_score))),
         ("past_avg_assignment_score", mean (past.map (fun r => r.assignment_score))),
         ("past_avg_attendance", mean (past.map (fun r => r.attendance_rate))),
         ("past_pass_rate", mean (past.map passedRat)),
         ("courses_taken", (past.length : Rat)),
         ("dept_pass_rate", dpr),
         ("prereq_avg_score",
           if prereq_past.isEmpty then mean (past.map (fun r => r.total_score))
           else mean (prereq_past.map (fun r => r.total_score))),
         ("prereq_pass_rate",
           if prereq_past.isEmpty then mean (past.map passedRat)
           else mean (prereq_past.map passedRat))])

/-- `get_history_features(student_id, course_code)`.  The store is `none` when
the CSV failed to load: `pd.DataFrame()` is a frame with no columns, so
selecting the `student_id` column raises KeyError; `some rows` models a loaded
frame with its header columns present. -/
def get_history_features (FEATURES : List String)
    (store : Option (List HistoricalRecord)) (student_id : Int)
    (course_code : Option String) : Except String (List (String × Rat)) :=
  match store with
  | none => .error "KeyError: student_id"
  | some rows =>
    let recs := rows.filter (fun r => r.student_id = student_id)
    if recs.isEmpty then .ok (zeroFill FEATURES)
    else histFeatsCore recs course_code

/-- The POST form fields read by `index`; required fields are present as raw
strings, the three optional scores may be absent. -/
structure Form where
  student_id : String
  course_code : String
  has_prerequisites : String
  credits : String
  attendance : String
  midterm : Option String
  final : Option String
  assignment : Option String

/-- Python truthiness of `request.form.get(...)`: absent and empty are falsy. -/
def optTruthy (v : Option String) : Option String :=
  match v with
  | none => none
  | some s => if s = "" then none else some s

/-- `float(x_input) if x_input else hist['past_avg_x_score']`; `none` means the
Python expression raised (ValueError on a bad literal, KeyError on a missing
dictionary key). -/
def backfill (hist : List (String × Rat)) (inp : Option String) (key : String) :
    Option Rat :=
  match optTruthy inp with
  | some s => pyFloat s
  | none => dlookup hist key

/-- The `data` dictionary built in `index`: six current-term keys followed by
the history dictionary (the key groups are disjoint). -/
def mergeData (pre : Int) (cr att mid fin asm : Rat)
    (hist : List (String × Rat)) : List (String × Rat) :=
  [("has_prerequisites", (pre : Rat)), ("credits", cr), ("attendance_rate", att),
   ("midterm_score", mid), ("final_score", fin), ("assignment_score", asm)] ++ hist

/-- `pd.DataFrame(data)[FEATURES]`: select exactly the FEATURES columns in that
order, discarding extras; `none` when a requested column is absent (KeyError). -/
def selectColumns (data : List (String × Rat)) (FEATURES : List String) :
    Option (List (String × Rat)) :=
  if FEATURES.all (fun k => (dlookup data k).isSome) then
    some (FEATURES.map (fun k => (k, (dlookup data k).getD 0)))
  else none

/-- The thresholding line `'Yes' if proba >= 0.5 else 'No'`. -/
def classify (p : Rat) : String := if (1 : Rat) / 2 ≤ p then "Yes" else "No"

/-- A classifier capability: a feature vector in FEATURES order to a pass
probability, as in `model.predict_proba(df_in)[:,1][0]`. -/
abbrev Model := List Rat → Rat

/-- The `index` handler up to the `data` dictionary: parse the required
fields, strip the course code, derive history features, backfill the optional
scores. -/
def mergedRecord (FEATURES : List String) (store : Option (List HistoricalRecord))
    (form : Form) : Except String (List (String × Rat)) :=
  match pyInt form.student_id with
  | none => .error "ValueError: invalid literal for int with base 10"
  | some sid =>
    match pyInt form.has_prerequisites with
    | none => .error "ValueError: invalid literal for int with base 10"
    | some pre =>
      match pyFloat form.credits with
      | none => .error "ValueError: could not convert string to float"
      | some cr =>
        match pyFloat form.attendance with
        | none => .error "ValueError: could not convert string to float"
        | some att =>
          match get_history_features FEATURES store sid (some (pyStrip form.course_code)) with
          | .error e => .error e
          | .ok hist =>
            match backfill hist form.midterm "past_avg_midterm_score" with
            | none => .error "ValueError or KeyError for the midterm score"
            | some mid =>
              match backfill hist form.final "past_avg_final_score" with
              | none => .error "ValueError or KeyError for the final score"
              | some fin =>
                match backfill hist form.assignment "past_avg_assignment_score" with
                | none => .error "ValueError or KeyError for the assignment score"
                | some asm => .ok (mergeData pre cr att mid fin asm hist)

/-- The scoring tail of `index`: schema selection, model call, threshold. -/
def runPipeline (FEATURES : List String) (store : Option (List HistoricalRecord))
    (model : Model) (form : Form) : Except String (String × Rat) :=
  match mergedRecord FEATURES store form with
  | .error e => .error e
  | .ok data =>
    match selectColumns data FEATURES with
    | none => .error "KeyError: columns not in index"
    | some vec => .ok (classify (model (vec.map Prod.snd)), model (vec.map Prod.snd))

/-- The outcome of one POST: a rendered prediction, or the message flashed by
the catch-all `except` (no exception propagates past it). -/
inductive IndexResult where
  | completed (prediction : String) (probability : Rat)
  | flash (msg : String)
  deriving DecidableEq

/-- The `index` POST handler: the whole `try` body, with every raised
exception mapped by the catch-all `except` to the flashed generic message. -/
def index (FEATURES : List String) (store : Option (List HistoricalRecord))
    (model : Model) (form : Form) : IndexResult :=
  match runPipeline FEATURES store model form with
  | .ok pr => .completed pr.1 pr.2
  | .error _ => .flash "Error during prediction. Please check inputs."

/-! Concrete data used to exercise the definitions: the scenario of the
specification's testable properties and a handful of small stores and forms. -/

/-- First prior record of student 42 in the scenario of the specification. -/
def rec1 : HistoricalRecord :=
  ⟨42, "MATH 201", false, 70, 65, 75, 70, 90, true⟩

/-- Second prior record of student 42 in the scenario of the specification. -/
def rec2 : HistoricalRecord :=
  ⟨42, "MATH 201", false, 40, 35, 45, 40, 60, false⟩

/-- A loaded store holding exactly the two scenario records. -/
def store42 : Option (List HistoricalRecord) := some [rec1, rec2]

/-- The scenario request: student 42, course MATH 201, midterm, final and
assignment omitted. -/
def form8 : Form := ⟨"42", "MATH 201", "1", "3", "80", none, none, none⟩

/-- History features computed for the scenario request. -/
def hist8 : List (String × Rat) :=
  (get_history_features FEATURES_default store42 42
    (some (pyStrip form8.course_code))).toOption.getD []

/-- The merged data dictionary of the scenario request. -/
def data8 : List (String × Rat) :=
  (mergedRecord FEATURES_default store42 form8).toOption.getD []

/-- A classifier stub returning probability one half for every vector. -/
def modelHalf : Model := fun _ => 1 / 2

/-- A well-formed request for a student absent from the store. -/
def formC2 : Form := ⟨"7", "CS 101", "1", "3", "80", none, none, none⟩

/-- A request whose `has_prerequisites` field parses to 2, outside 0 and 1. -/
def formC3 : Form := ⟨"7", "CS 101", "2", "3", "80", some "70", some "70", some "70"⟩

/-- A request whose course code is the empty string. -/
def formC3e : Form := ⟨"7", "", "1", "3", "80", some "70", some "70", some "70"⟩

/-- A request whose student id does not parse as an integer. -/
def formBad : Form := ⟨"seven", "CS 101", "1", "3", "80", none, none, none⟩

/-- A feature list omitting `past_avg_midterm_score`. -/
def featsNoMid : List String :=
  FEATURES_default.filter (fun k => k ≠ "past_avg_midterm_score")

/-- Two records of a student whose courses are all outside department MATH. -/
def rowsW1 : List HistoricalRecord :=
  [⟨1, "CS 101", false, 80, 80, 80, 80, 90, true⟩,
   ⟨1, "EE 200", false, 60, 60, 60, 60, 70, false⟩]

/-- A single record of a student with records only in course CS 101. -/
def rowsW4 : List HistoricalRecord :=
  [⟨5, "CS 101", true, 88, 90, 85, 92, 95, true⟩]

/-- History features computed for the `rowsW1` student and course MATH 210. -/
def histW1 : List (String × Rat) :=
  (get_history_features FEATURES_default (some rowsW1) 1
    (some "MATH 210")).toOption.getD []

/-- The merged data dictionary for the scenario request under a feature list
extended with an unknown name. -/
def dataExtra : List (String × Rat) :=
  (mergedRecord (FEATURES_default ++ ["extra_key"]) store42 form8).toOption.getD []

/-- History features for student 42 under a one-name feature list. -/
def histX : List (String × Rat) :=
  (get_history_features ["x"] store42 42 none).toOption.getD []

/-! Helper lemmas shared by the claim theorems. -/

lemma firstToken_some_ne_empty {c d : String} (h : firstToken c = some d) : c ≠ "" := by
  intro hc
  subst hc
  simp [firstToken] at h

lemma dlookup_map_zero (L : List String) (k : String) (hk : k ∈ L) :
    dlookup (L.map (fun k2 => (k2, (0 : Rat)))) k = some 0 := by
  induction L with
  | nil => exact absurd hk (List.not_mem_nil k)
  | cons a t ih =>
    by_cases hak : a = k
    · simp [dlookup, hak]
    · rcases List.mem_cons.mp hk with h | h
      · exact absurd h.symm hak
      · simpa [dlookup, hak] using ih h

lemma dlookup_zeroFill (FEATURES : List String) (k : String)
    (hk : k ∈ FEATURES) (hh : isHistKey k = true) :
    dlookup (zeroFill FEATURES) k = some 0 :=
  dlookup_map_zero (FEATURES.filter isHistKey) k (List.mem_filter.mpr ⟨hk, hh⟩)

lemma map_fst_pair (f : String → Rat) (L : List String) :
    (L.map (fun k => (k, f k))).map Prod.fst = L := by
  induction L with
  | nil => rfl
  | cons a t ih => simp [ih]

lemma get_history_features_nonempty (FEATURES : List String)
    (rows : List HistoricalRecord) (sid : Int) (cc : Option String)
    (hne : (rows.filter (fun r => r.student_id = sid)).isEmpty = false) :
    get_history_features FEATURES (some rows) sid cc =
      histFeatsCore (rows.filter (fun r => r.student_id = sid)) cc := by
  have h : (if (rows.filter (fun r => r.student_id = sid)).isEmpty = true then
      (.ok (zeroFill FEATURES) : Except String (List (String × Rat))) else
      histFeatsCore (rows.filter (fun r => r.student_id = sid)) cc) =
      histFeatsCore (rows.filter (fun r => r.student_id = sid)) cc := by
    rw [hne]
    simp
  exact h

lemma get_history_features_empty (FEATURES : List String)
    (rows : List HistoricalRecord) (sid : Int) (cc : Option String)
    (hz : rows.filter (fun r => r.student_id = sid) = []) :
    get_history_features FEATURES (some rows) sid cc = .ok (zeroFill FEATURES) := by
  have hE : (rows.filter (fun r => r.student_id = sid)).isEmpty = true := by simp [hz]
  have h : (if (rows.filter (fun r => r.student_id = sid)).isEmpty = true then
      (.ok (zeroFill FEATURES) : Except String (List (String × Rat))) else
      histFeatsCore (rows.filter (fun r => r.student_id = sid)) cc) =
      .ok (zeroFill FEATURES) := by
    rw [hE]
    simp
  exact h

lemma mergedRecord_parse_error (FEATURES : List String)
    (store : Option (List HistoricalRecord)) (form : Form)
    (hbad : pyInt form.student_id = none ∨ pyInt form.has_prerequisites = none ∨
      pyFloat form.credits = none ∨ pyFloat form.attendance = none) :
    ∃ e, mergedRecord FEATURES store form = .error e := by
  cases h1 : pyInt form.student_id with
  | none =>
    exact ⟨"ValueError: invalid literal for int with base 10", by simp [mergedRecord, h1]⟩
  | some sid =>
    cases h2 : pyInt form.has_prerequisites with
    | none =>
      exact ⟨"ValueError: invalid literal for int with base 10", by simp [mergedRecord, h1, h2]⟩
    | some pre =>
      cases h3 : pyFloat form.credits with
      | none =>
        exact ⟨"ValueError: could not convert string to float", by simp [mergedRecord, h1, h2, h3]⟩
      | some cr =>
        cases h4 : pyFloat form.attendance with
        | none =>
          exact ⟨"ValueError: could not convert string to float",
            by simp [mergedRecord, h1, h2, h3, h4]⟩
        | some att =>
          exfalso
          rcases hbad with h | h | h | h
          · rw [h] at h1; exact Option.noConfusion h1
          · rw [h] at h2; exact Option.noConfusion h2
          · rw [h] at h3; exact Option.noConfusion h3
          · rw [h] at h4; exact Option.noConfusion h4

lemma index_flash_of_error (FEATURES : List String)
    (store : Option (List HistoricalRecord)) (model : Model) (form : Form) (e : String)
    (he : mergedRecord FEATURES store form = .error e) :
    index FEATURES store model form = .flash "Error during prediction. Please check inputs." := by
  simp [index, runPipeline, he]

/-! The claim theorems. -/

/-- Claim C2 (code bug): with the historical dataset failed to load the store
is `pd.DataFrame()`, a frame with no columns, and `get_history_features`
raises KeyError selecting the `student_id` column before the zero-fill branch
can run; every POST then flashes the generic error instead of completing with
a prediction.  Had the store loaded with its columns but no rows the same
request would have taken the zero-fill path and completed, as the third
conjunct shows. -/
theorem C2_store_load_failure :
    get_history_features FEATURES_default none 7 (some "CS 101") =
      .error "KeyError: student_id" ∧
    index FEATURES_default none modelHalf formC2 =
      .flash "Error during prediction. Please check inputs." ∧
    index FEATURES_default (some []) modelHalf formC2 = .completed "Yes" (1 / 2) :=
  ⟨rfl, by decide, by with_unfolding_all decide⟩

/-- Claim C3 counterexample: a request whose `has_prerequisites` parses to 2
(outside 0 and 1) and a request with an empty course code are both accepted
and scored to a completed prediction, instead of being rejected. -/
theorem C3_counterexample :
    pyInt formC3.has_prerequisites = some 2 ∧ (2 : Int) ≠ 0 ∧ (2 : Int) ≠ 1 ∧
    index FEATURES_default (some []) modelHalf formC3 = .completed "Yes" (1 / 2) ∧
    pyStrip formC3e.course_code = "" ∧
    index FEATURES_default (some []) modelHalf formC3e = .completed "Yes" (1 / 2) :=
  ⟨by decide, by decide, by decide, by with_unfolding_all decide, rfl,
    by with_unfolding_all decide⟩

/-- Claim C3 amended: validation covers parseability only.  A request whose
`student_id` or `has_prerequisites` fails integer parsing or whose `credits`
or `attendance` fails float parsing ends with the flashed user-facing message
and no prediction; and every request whatsoever yields either a completed
prediction or that same flashed message, so no exception reaches the
transport layer.  Membership of `has_prerequisites` in 0..1 and non-emptiness
of `course_code` are not checked (see the counterexample). -/
theorem C3_parse_only_validation (FEATURES : List String)
    (store : Option (List HistoricalRecord)) (model : Model) (form : Form)
    (hbad : pyInt form.student_id = none ∨ pyInt form.has_prerequisites = none ∨
      pyFloat form.credits = none ∨ pyFloat form.attendance = none) :
    index FEATURES store model form = .flash "Error during prediction. Please check inputs." ∧
    ∀ form2 : Form, (∃ p q, index FEATURES store model form2 = .completed p q) ∨
      index FEATURES store model form2 =
        .flash "Error during prediction. Please check inputs." := by
  constructor
  · obtain ⟨e, he⟩ := mergedRecord_parse_error FEATURES store form hbad
    exact index_flash_of_error FEATURES store model form e he
  · intro form2
    cases hr : runPipeline FEATURES store model form2 with
    | ok pr => exact Or.inl ⟨pr.1, pr.2, by simp [index, hr]⟩
    | error e => exact Or.inr (by simp [index, hr])

/-- Witness for the amended claim C3 at a concrete unparseable request. -/
theorem C3_parse_only_validation_witness :
    index FEATURES_default (some []) modelHalf formBad =
      .flash "Error during prediction. Please check inputs." :=
  (C3_parse_only_validation FEATURES_default (some []) modelHalf formBad
    (Or.inl (by decide))).1

/-- Claim C6: for every student with zero historical records,
`get_history_features` returns every history-derived key with value 0, for
any course code argument (provided the loaded FEATURES list contains the ten
history-derived names, as the hardcoded default does). -/
theorem C6_no_history_zero_fill (FEATURES : List String)
    (rows : List HistoricalRecord) (sid : Int) (cc : Option String)
    (hz : rows.filter (fun r => r.student_id = sid) = [])
    (hsub : ∀ k ∈ histKeys10, k ∈ FEATURES) :
    ∃ hist, get_history_features FEATURES (some rows) sid cc = .ok hist ∧
      ∀ k ∈ histKeys10, dlookup hist k = some 0 := by
  refine ⟨zeroFill FEATURES, get_history_features_empty FEATURES rows sid cc hz, ?_⟩
  intro k hk
  have hkF : k ∈ FEATURES := hsub k hk
  have hhk : isHistKey k = true := by
    simp only [histKeys10, List.mem_cons, List.not_mem_nil, or_false] at hk
    rcases hk with rfl | rfl | rfl | rfl | rfl | rfl | rfl | rfl | rfl | rfl <;> decide
  exact dlookup_zeroFill FEATURES k hkF hhk

/-- Witness for claim C6: a student absent from a loaded store, with the
default feature list and a concrete course code. -/
theorem C6_no_history_zero_fill_witness :
    ∃ hist, get_history_features FEATURES_default (some []) 99 (some "CS 101") = .ok hist ∧
      ∀ k ∈ histKeys10, dlookup hist k = some 0 :=
  C6_no_history_zero_fill FEATURES_default [] 99 (some "CS 101") rfl (by decide)

/-- Claim C7: the label is Yes (pass) exactly when the probability is at
least one half, the boundary one half classifying as Yes, and the pipeline
applies `classify` to the raw model probability with no calibration. -/
theorem C7_threshold :
    (∀ p : Rat, (classify p = "Yes" ↔ 1 / 2 ≤ p) ∧ classify (1 / 2) = "Yes") ∧
    (∀ (FEATURES : List String) (store : Option (List HistoricalRecord)) (model : Model)
      (form : Form) (pred : String) (proba : Rat),
      runPipeline FEATURES store model form = .ok (pred, proba) → pred = classify proba) := by
  constructor
  · intro p
    refine ⟨?_, by simp [classify]⟩
    by_cases hp : (1 : Rat) / 2 ≤ p
    · simp [classify, hp]
    · simp [classify, hp]
  · intro F store model form pred proba h
    unfold runPipeline at h
    cases hm : mergedRecord F store form with
    | error e => simp [hm] at h
    | ok data =>
      simp only [hm] at h
      cases hs : selectColumns data F with
      | none => simp [hs] at h
      | some vec =>
        simp only [hs, Except.ok.injEq, Prod.mk.injEq] at h
        obtain ⟨h1, h2⟩ := h
        rw [← h1, ← h2]

/-- Witness for claim C7 at concrete probabilities and a concrete scored
request. -/
theorem C7_threshold_witness :
    classify ((7 : Rat) / 10) = "Yes" ∧ "Yes" = classify ((1 : Rat) / 2) := by
  have h := C7_threshold
  refine ⟨(h.1 ((7 : Rat) / 10)).1.mpr (by norm_num), ?_⟩
  exact h.2 FEATURES_default (some []) modelHalf formC2 "Yes" (1 / 2)
    (by with_unfolding_all rfl)

/-- Claim C8: in the two-record MATH 201 scenario for student 42 with all
three current-term scores omitted, the backfilled midterm, final and
assignment are 50, 60 and 55, and the history features give average
attendance 75, pass rate one half and two courses taken. -/
theorem C8_scenario :
    dlookup data8 "midterm_score" = some 50 ∧
    dlookup data8 "final_score" = some 60 ∧
    dlookup data8 "assignment_score" = some 55 ∧
    dlookup hist8 "past_avg_attendance" = some 75 ∧
    dlookup hist8 "past_pass_rate" = some (1 / 2) ∧
    dlookup hist8 "courses_taken" = some 2 := by
  with_unfolding_all decide

/-- Claim C1: for every student with at least one historical record and every
request whose course code names a department (its first whitespace token
being the substring before the first space), if none of the student's past
rows' course codes start with the department token then `dept_pass_rate`
equals the overall `past_pass_rate` entry, and otherwise `dept_pass_rate` is
the mean of `passed` over the past rows whose course code starts with that
token. -/
theorem C1_dept_pass_rate (FEATURES : List String) (rows : List HistoricalRecord)
    (sid : Int) (c : String) (hist : List (String × Rat))
    (hne : rows.filter (fun r => r.student_id = sid) ≠ [])
    (hdept : firstToken c = some (beforeFirstSpace c))
    (hok : get_history_features FEATURES (some rows) sid (some c) = .ok hist) :
    ((∀ r ∈ pastSet (rows.filter (fun r => r.student_id = sid)) (some c),
        ¬ pyStartsWith r.course_code (beforeFirstSpace c)) →
      dlookup hist "dept_pass_rate" = dlookup hist "past_pass_rate") ∧
    ((∃ r ∈ pastSet (rows.filter (fun r => r.student_id = sid)) (some c),
        pyStartsWith r.course_code (beforeFirstSpace c)) →
      dlookup hist "dept_pass_rate" =
        some (mean (((pastSet (rows.filter (fun r => r.student_id = sid)) (some c)).filter
          (fun r => pyStartsWith r.course_code (beforeFirstSpace c))).map passedRat))) := by
  have hE : (rows.filter (fun r => r.student_id = sid)).isEmpty = false := by
    simpa using hne
  have hcne : c ≠ "" := firstToken_some_ne_empty hdept
  have hdpr : deptPassRate (pastSet (rows.filter (fun r => r.student_id = sid)) (some c))
      (some c) =
      if ((pastSet (rows.filter (fun r => r.student_id = sid)) (some c)).filter
            (fun r => pyStartsWith r.course_code (beforeFirstSpace c))).isEmpty then
        .ok (mean ((pastSet (rows.filter (fun r => r.student_id = sid)) (some c)).map passedRat))
      else
        .ok (mean (((pastSet (rows.filter (fun r => r.student_id = sid)) (some c)).filter
          (fun r => pyStartsWith r.course_code (beforeFirstSpace c))).map passedRat)) := by
    simp [deptPassRate, hdept, hcne]
  rw [get_history_features_nonempty FEATURES rows sid (some c) hE] at hok
  simp only [histFeatsCore] at hok
  rw [hdpr] at hok
  by_cases hfe : ((pastSet (rows.filter (fun r => r.student_id = sid)) (some c)).filter
      (fun r => pyStartsWith r.course_code (beforeFirstSpace c))).isEmpty
  · rw [if_pos hfe] at hok
    simp only [Except.map] at hok
    injection hok with hok
    subst hok
    refine ⟨fun _ => by simp [dlookup], fun hex => ?_⟩
    exfalso
    obtain ⟨r, hr, hsw⟩ := hex
    have hmem : r ∈ (pastSet (rows.filter (fun r => r.student_id = sid)) (some c)).filter
        (fun r => pyStartsWith r.course_code (beforeFirstSpace c)) :=
      List.mem_filter.mpr ⟨hr, hsw⟩
    rw [List.isEmpty_iff.mp hfe] at hmem
    exact List.not_mem_nil r hmem
  · rw [if_neg hfe] at hok
    simp only [Except.map] at hok
    injection hok with hok
    subst hok
    refine ⟨fun hall => ?_, fun _ => by simp [dlookup]⟩
    exfalso
    apply hfe
    have hnil : (pastSet (rows.filter (fun r => r.student_id = sid)) (some c)).filter
        (fun r => pyStartsWith r.course_code (beforeFirstSpace c)) = [] :=
      List.filter_eq_nil_iff.mpr hall
    simp [hnil]

/-- Witness for claim C1: a student with two records, none in the requested
department MATH, whose department pass rate falls back to the overall past
pass rate. -/
theorem C1_dept_pass_rate_witness :
    dlookup histW1 "dept_pass_rate" = dlookup histW1 "past_pass_rate" :=
  (C1_dept_pass_rate FEATURES_default rowsW1 1 "MATH 210" histW1
    (by decide) (by decide) rfl).1 (by decide)

/-- Claim C4: for a student all of whose historical records are in the single
course C, `get_history_features` with C gives exactly the same feature
mapping as with no course code, because the exclusion empties the past set
and the computation falls back to the full record set.  (C is constrained to
the data model's course-code shape: empty, or containing a first whitespace
token.) -/
theorem C4_self_exclusion (FEATURES : List String) (rows : List HistoricalRecord)
    (sid : Int) (C : String)
    (hne : rows.filter (fun r => r.student_id = sid) ≠ [])
    (hall : ∀ r ∈ rows.filter (fun r => r.student_id = sid), r.course_code = C)
    (hC : C = "" ∨ ∃ d, firstToken C = some d) :
    get_history_features FEATURES (some rows) sid (some C) =
      get_history_features FEATURES (some rows) sid none := by
  have hE : (rows.filter (fun r => r.student_id = sid)).isEmpty = false := by
    simpa using hne
  have hps : pastSet (rows.filter (fun r => r.student_id = sid)) (some C) =
      rows.filter (fun r => r.student_id = sid) := by
    have hnil : (rows.filter (fun r => r.student_id = sid)).filter
        (fun r => r.course_code ≠ C) = [] := by
      rw [List.filter_eq_nil_iff]
      intro r hr
      simp [hall r hr]
    simp only [pastSet]
    rw [hnil]
    simp
  have hps0 : pastSet (rows.filter (fun r => r.student_id = sid)) none =
      rows.filter (fun r => r.student_id = sid) := rfl
  have hdpr : deptPassRate (rows.filter (fun r => r.student_id = sid)) (some C) =
      .ok (mean ((rows.filter (fun r => r.student_id = sid)).map passedRat)) := by
    rcases hC with hc | ⟨d, hd⟩
    · simp [deptPassRate, hc]
    · have hcne : C ≠ "" := firstToken_some_ne_empty hd
      by_cases hsw : pyStartsWith C d
      · have hfeq : (rows.filter (fun r => r.student_id = sid)).filter
            (fun r => pyStartsWith r.course_code d) =
            rows.filter (fun r => r.student_id = sid) := by
          rw [List.filter_eq_self]
          intro r hr
          rw [hall r hr]
          exact hsw
        simp [deptPassRate, hcne, hd, hfeq, hE]
      · have hfnil : (rows.filter (fun r => r.student_id = sid)).filter
            (fun r => pyStartsWith r.course_code d) = [] := by
          rw [List.filter_eq_nil_iff]
          intro r hr
          rw [hall r hr]
          exact hsw
        simp [deptPassRate, hcne, hd, hfnil]
  have hdpr0 : deptPassRate (rows.filter (fun r => r.student_id = sid)) none =
      .ok (mean ((rows.filter (fun r => r.student_id = sid)).map passedRat)) := rfl
  rw [get_history_features_nonempty FEATURES rows sid (some C) hE,
    get_history_features_nonempty FEATURES rows sid none hE]
  simp only [histFeatsCore, hps, hps0, hdpr, hdpr0]

/-- Witness for claim C4: a student whose single record is in CS 101,
requested for CS 101. -/
theorem C4_self_exclusion_witness :
    get_history_features FEATURES_default (some rowsW4) 5 (some "CS 101") =
      get_history_features FEATURES_default (some rowsW4) 5 none :=
  C4_self_exclusion FEATURES_default rowsW4 5 "CS 101" (by decide) (by decide)
    (Or.inr ⟨"CS", by decide⟩)

/-- Claim C5: for every request, an optional score the caller did not supply
(absent or empty) is backfilled in the merged record with exactly the
student's corresponding `past_avg_*` history value, while a supplied
parseable value is used unchanged. -/
theorem C5_backfill_policy (FEATURES : List String)
    (store : Option (List HistoricalRecord)) (form : Form) (sid : Int)
    (hist data : List (String × Rat))
    (hsid : pyInt form.student_id = some sid)
    (hhist : get_history_features FEATURES store sid
      (some (pyStrip form.course_code)) = .ok hist)
    (hdata : mergedRecord FEATURES store form = .ok data) :
    (optTruthy form.midterm = none →
      dlookup data "midterm_score" = dlookup hist "past_avg_midterm_score") ∧
    (optTruthy form.final = none →
      dlookup data "final_score" = dlookup hist "past_avg_final_score") ∧
    (optTruthy form.assignment = none →
      dlookup data "assignment_score" = dlookup hist "past_avg_assignment_score") ∧
    (∀ s v, optTruthy form.midterm = some s → pyFloat s = some v →
      dlookup data "midterm_score" = some v) ∧
    (∀ s v, optTruthy form.final = some s → pyFloat s = some v →
      dlookup data "final_score" = some v) ∧
    (∀ s v, optTruthy form.assignment = some s → pyFloat s = some v →
      dlookup data "assignment_score" = some v) := by
  cases hpre : pyInt form.has_prerequisites with
  | none => simp [mergedRecord, hsid, hpre] at hdata
  | some pre =>
  cases hcr : pyFloat form.credits with
  | none => simp [mergedRecord, hsid, hpre, hcr] at hdata
  | some cr =>
  cases hatt : pyFloat form.attendance with
  | none => simp [mergedRecord, hsid, hpre, hcr, hatt] at hdata
  | some att =>
  cases hmid : backfill hist form.midterm "past_avg_midterm_score" with
  | none => simp [mergedRecord, hsid, hpre, hcr, hatt, hhist, hmid] at hdata
  | some mid =>
  cases hfin : backfill hist form.final "past_avg_final_score" with
  | none => simp [mergedRecord, hsid, hpre, hcr, hatt, hhist, hmid, hfin] at hdata
  | some fin =>
  cases hasm : backfill hist form.assignment "past_avg_assignment_score" with
  | none => simp [mergedRecord, hsid, hpre, hcr, hatt, hhist, hmid, hfin, hasm] at hdata
  | some asm =>
  have hdd : data = mergeData pre cr att mid fin asm hist := by
    simp only [mergedRecord, hsid, hpre, hcr, hatt, hhist, hmid, hfin, hasm] at hdata
    exact (Except.ok.inj hdata).symm
  subst hdd
  refine ⟨?_, ?_, ?_, ?_, ?_, ?_⟩
  · intro h0
    have hm2 : dlookup hist "past_avg_midterm_score" = some mid := by
      rw [← hmid]
      simp [backfill, h0]
    rw [hm2]
    simp [mergeData, dlookup]
  · intro h0
    have hm2 : dlookup hist "past_avg_final_score" = some fin := by
      rw [← hfin]
      simp [backfill, h0]
    rw [hm2]
    simp [mergeData, dlookup]
  · intro h0
    have hm2 : dlookup hist "past_avg_assignment_score" = some asm := by
      rw [← hasm]
      simp [backfill, h0]
    rw [hm2]
    simp [mergeData, dlookup]
  · intro s v hs hv
    have hm2 : pyFloat s = some mid := by
      rw [← hmid]
      simp [backfill, hs]
    rw [hv] at hm2
    obtain rfl : v = mid := Option.some.inj hm2
    simp [mergeData, dlookup]
  · intro s v hs hv
    have hm2 : pyFloat s = some fin := by
      rw [← hfin]
      simp [backfill, hs]
    rw [hv] at hm2
    obtain rfl : v = fin := Option.some.inj hm2
    simp [mergeData, dlookup]
  · intro s v hs hv
    have hm2 : pyFloat s = some asm := by
      rw [← hasm]
      simp [backfill, hs]
    rw [hv] at hm2
    obtain rfl : v = asm := Option.some.inj hm2
    simp [mergeData, dlookup]

/-- Witness for claim C5: the scenario request, whose three omitted scores
are backfilled with the student's history averages. -/
theorem C5_backfill_policy_witness :
    dlookup data8 "midterm_score" = dlookup hist8 "past_avg_midterm_score" ∧
    dlookup data8 "final_score" = dlookup hist8 "past_avg_final_score" ∧
    dlookup data8 "assignment_score" = dlookup hist8 "past_avg_assignment_score" := by
  have h := C5_backfill_policy FEATURES_default store42 form8 42 hist8 data8
    (by decide) rfl rfl
  exact ⟨h.1 rfl, h.2.1 rfl, h.2.2.1 rfl⟩

/-- Claim C9: the feature vector handed to the classifier has exactly the
keys of FEATURES, in FEATURES order, extras in the merged record discarded;
and when some FEATURES key is absent from the merged record the selection
fails and the request ends with the flashed error rather than scoring a
misaligned vector. -/
theorem C9_feature_vector :
    (∀ (FEATURES : List String) (data : List (String × Rat)),
      (∀ k ∈ FEATURES, (dlookup data k).isSome) →
      selectColumns data FEATURES =
        some (FEATURES.map (fun k => (k, (dlookup data k).getD 0))) ∧
      (FEATURES.map (fun k => (k, (dlookup data k).getD 0))).map Prod.fst = FEATURES) ∧
    (∀ (FEATURES : List String) (data : List (String × Rat)),
      (∃ k ∈ FEATURES, dlookup data k = none) → selectColumns data FEATURES = none) ∧
    (∀ (FEATURES : List String) (store : Option (List HistoricalRecord)) (model : Model)
      (form : Form) (data : List (String × Rat)),
      mergedRecord FEATURES store form = .ok data → selectColumns data FEATURES = none →
      index FEATURES store model form =
        .flash "Error during prediction. Please check inputs.") := by
  refine ⟨?_, ?_, ?_⟩
  · intro F data h
    have hall : F.all (fun k => (dlookup data k).isSome) = true := List.all_eq_true.mpr h
    exact ⟨by simp [selectColumns, hall], map_fst_pair (fun k => (dlookup data k).getD 0) F⟩
  · rintro F data ⟨k, hk, hnone⟩
    have hall : F.all (fun k => (dlookup data k).isSome) = false := by
      rw [List.all_eq_false]
      exact ⟨k, hk, by simp [hnone]⟩
    simp [selectColumns, hall]
  · intro F store model form data hm hs
    simp [index, runPipeline, hm, hs]

/-- Witness for claim C9: a concrete selection with an extra key, a concrete
missing key, and the scenario request scored under a feature list extended
with an unknown name. -/
theorem C9_feature_vector_witness :
    (selectColumns [("a", (1 : Rat)), ("b", 2)] ["b"] =
      some (["b"].map (fun k => (k, (dlookup [("a", (1 : Rat)), ("b", 2)] k).getD 0))) ∧
     (["b"].map (fun k => (k, (dlookup [("a", (1 : Rat)), ("b", 2)] k).getD 0))).map
       Prod.fst = ["b"]) ∧
    selectColumns [("a", (1 : Rat))] ["b"] = none ∧
    index (FEATURES_default ++ ["extra_key"]) store42 modelHalf form8 =
      .flash "Error during prediction. Please check inputs." := by
  refine ⟨C9_feature_vector.1 ["b"] [("a", (1 : Rat)), ("b", 2)] (by decide),
    C9_feature_vector.2.1 ["b"] [("a", (1 : Rat))] ⟨"b", by decide, by decide⟩,
    C9_feature_vector.2.2 (FEATURES_default ++ ["extra_key"]) store42 modelHalf form8
      dataExtra rfl (by with_unfolding_all decide)⟩

/-- Claim C10: the two branches of `get_history_features` return different
key sets: with at least one record the dictionary always carries the ten
fixed history keys regardless of FEATURES, while with zero records it
carries only the history-named entries of FEATURES; so under a loaded
feature list omitting `past_avg_midterm_score`, a request for a no-history
student with the midterm omitted fails with the flashed error during
backfill instead of backfilling. -/
theorem C10_branch_key_sets :
    (∀ (FEATURES : List String) (rows : List HistoricalRecord) (sid : Int)
      (cc : Option String) (hist : List (String × Rat)),
      rows.filter (fun r => r.student_id = sid) ≠ [] →
      get_history_features FEATURES (some rows) sid cc = .ok hist →
      hist.map Prod.fst = histKeys10) ∧
    (∀ (FEATURES : List String) (rows : List HistoricalRecord) (sid : Int)
      (cc : Option String),
      rows.filter (fun r => r.student_id = sid) = [] →
      get_history_features FEATURES (some rows) sid cc = .ok (zeroFill FEATURES) ∧
      (zeroFill FEATURES).map Prod.fst = FEATURES.filter isHistKey) ∧
    (dlookup (zeroFill featsNoMid) "past_avg_midterm_score" = none ∧
      index featsNoMid (some []) modelHalf formC2 =
        .flash "Error during prediction. Please check inputs.") := by
  refine ⟨?_, ?_, by decide, by decide⟩
  · intro F rows sid cc hist hne hok
    have hE : (rows.filter (fun r => r.student_id = sid)).isEmpty = false := by
      simpa using hne
    rw [get_history_features_nonempty F rows sid cc hE] at hok
    simp only [histFeatsCore] at hok
    cases hd : deptPassRate (pastSet (rows.filter (fun r => r.student_id = sid)) cc) cc with
    | error e => rw [hd] at hok; simp [Except.map] at hok
    | ok dpr =>
      rw [hd] at hok
      simp only [Except.map] at hok
      injection hok with hok
      subst hok
      rfl
  · intro F rows sid cc hz
    exact ⟨get_history_features_empty F rows sid cc hz,
      map_fst_pair (fun _ => 0) (F.filter isHistKey)⟩

/-- Witness for claim C10: the non-empty branch keeps the ten keys even under
a one-name feature list, and the zero branch returns exactly the filtered
feature list keys. -/
theorem C10_branch_key_sets_witness :
    histX.map Prod.fst = histKeys10 ∧
    (get_history_features featsNoMid (some []) 7 (some "CS 101") = .ok (zeroFill featsNoMid) ∧
      (zeroFill featsNoMid).map Prod.fst = featsNoMid.filter isHistKey) :=
  ⟨C10_branch_key_sets.1 ["x"] [rec1, rec2] 42 none histX (by decide) rfl,
    C10_branch_key_sets.2.1 featsNoMid [] 7 (some "CS 101") rfl⟩

end PerfModel
